import Mathlib

/-!
Verification development for the CuraGenie genomic ingestion and
risk-scoring engine (format detection, VCF parsing, quality control and
polygenic risk scoring).

The repository ships the engine's documentation, its disease panels with
their GWAS effect sizes, and its recorded test output, together with the
frontend components that display the scores.  The engine's own
`genomic_utils.py` is not part of the source tree here, so the engine is
modelled from the design specification (shallow embedding, exact rational
arithmetic); definitions taken from an actual source file say so in their
doc comment.  Wall-clock behaviour (upload delays, deadlines) and byte-level
gzip framing are outside the embedding: the model receives the decompressed
text already split into lines and tab-separated fields.
-/

/-! ## Basic data model -/

/-- Modelled from the spec: the `FileType` enum produced by FormatDetector. -/
inductive FileType where
  | Vcf
  | Fastq
  | Unknown
deriving DecidableEq, Repr

/-- Modelled from the spec: the error taxonomy of the processing core. -/
inductive ProcError where
  | UnsupportedFormat
  | EmptyFile
  | MalformedHeader
  | MalformedFile
  | Timeout
  | PanelNotFound
  | InternalError
deriving DecidableEq, Repr

/-- Modelled from the spec: the derived classification of a VCF variant. -/
inductive VariantType where
  | SNV
  | Insertion
  | Deletion
  | Complex
deriving DecidableEq, Repr

/-- Modelled from the spec: a variant parsed from one VCF data line.
`qual` is `none` when the QUAL column is missing, `.`, or unparseable. -/
structure Variant where
  chrom : String
  pos : Nat
  id : String
  ref : String
  alt : String
  qual : Option Rat
  vtype : VariantType
deriving DecidableEq, Repr

/-- Modelled from the spec: one curated risk-panel entry (rsID, locus,
risk allele and signed effect size; negative means protective). -/
structure SnpPanelEntry where
  rsid : String
  chrom : String
  pos : Nat
  riskAllele : String
  effectSize : Rat
deriving DecidableEq, Repr

/-- Modelled from the spec: the three-level risk category of a PRS. -/
inductive RiskCategory where
  | Low
  | Moderate
  | High
deriving DecidableEq, Repr

/-- Modelled from the spec: the per-disease polygenic risk score record.
The configuration-dependent percentile estimate is a separate derived
value (a normal CDF) and is not part of this exact-arithmetic model. -/
structure PrsResult where
  disease : String
  rawScore : Rat
  normalizedScore : Rat
  category : RiskCategory
  matchedCount : Nat
  panelSize : Nat
  fallback : Bool
deriving DecidableEq, Repr

/-! ## Character-level parsing helpers -/

/-- Reads a run of decimal digits, failing on any non-digit character. -/
def natFromChars : List Char → Nat → Option Nat
  | [], acc => some acc
  | c :: cs, acc =>
      if c.isDigit then natFromChars cs (10 * acc + (c.toNat - 48)) else none

/-- Parses a non-empty all-digit string such as the POS column. -/
def natFromString (s : String) : Option Nat :=
  match s.data with
  | [] => none
  | cs => natFromChars cs 0

/-- Parses a non-negative decimal literal (`760`, `884.8`) into a rational. -/
def ratFromChars (cs : List Char) : Option Rat :=
  let intPart := cs.takeWhile (· ≠ '.')
  if intPart.isEmpty then none
  else
    match cs.dropWhile (· ≠ '.') with
    | [] => (natFromChars intPart 0).map (fun n => (n : Rat))
    | _ :: fracs =>
        match natFromChars intPart 0, natFromChars fracs 0 with
        | some n, some f => some ((n : Rat) + (f : Rat) / ((10 : Rat) ^ fracs.length))
        | _, _ => none

/-- Modelled from the spec: QUAL parsing; a missing or `.` value is
"unknown quality", excluded from the mean but still a counted variant. -/
def qualFromString (s : String) : Option Rat :=
  if s = "." then none else ratFromChars s.data

/-- Boolean suffix test on strings, used for filename-extension rules. -/
def strEndsWith (s suffix : String) : Bool :=
  suffix.data.isSuffixOf s.data

/-- Boolean prefix test on strings, used for content sniffing. -/
def strStartsWith (s pre : String) : Bool :=
  pre.data.isPrefixOf s.data

/-! ## FormatDetector -/

/-- Modelled from the spec: FormatDetector — filename-extension rules first,
then a content sniff of the first line (`##fileformat=VCF` or a FASTQ `@`
record).  Gzip framing is byte-level and outside this text-line model. -/
def detectFormat (lines : List (List String)) (filename : String) : FileType :=
  if strEndsWith filename ".vcf" || strEndsWith filename ".vcf.gz" then .Vcf
  else if strEndsWith filename ".fastq" || strEndsWith filename ".fq"
      || strEndsWith filename ".fastq.gz" then .Fastq
  else
    match lines with
    | (s :: _) :: _ =>
        if strStartsWith s "##fileformat=VCF" then .Vcf
        else if strStartsWith s "@" then .Fastq
        else .Unknown
    | _ => .Unknown

/-! ## VcfAnalyzer -/

/-- Modelled from the spec: variant-type classification.  A multi-allelic
ALT (comma-separated alternates) is Complex; otherwise the REF/ALT length
pattern decides SNV / Insertion / Deletion, and anything else is Complex. -/
def classifyVariant (ref alt : String) : VariantType :=
  if alt.data.contains ',' then .Complex
  else if ref.length = 1 ∧ alt.length = 1 then .SNV
  else if ref.length < alt.length then .Insertion
  else if alt.length < ref.length then .Deletion
  else .Complex

/-- Modelled from the spec: one VCF data line (already tab-split into
fields).  A line with fewer than the 8 mandatory columns or a non-numeric
POS is malformed and yields `none`. -/
def parseFields (fields : List String) : Option Variant :=
  match fields with
  | chrom :: pos :: vid :: ref :: alt :: qual :: _filterCol :: _info :: _rest =>
      match natFromString pos with
      | some p =>
          some { chrom := chrom, pos := p, id := vid, ref := ref, alt := alt,
                 qual := qualFromString qual, vtype := classifyVariant ref alt }
      | none => none
  | _ => none

/-- True exactly when `parseFields` rejects the line. -/
def malformedLine (fields : List String) : Bool :=
  (parseFields fields).isNone

/-- Number of malformed lines in a list of data lines. -/
def countMalformed (lines : List (List String)) : Nat :=
  (lines.filter malformedLine).length

/-- Modelled from the spec: the finalized aggregate statistics of a VCF
parse.  The spec keeps a Welford running mean; the model keeps the list of
observed QUAL values, whose arithmetic mean coincides with Welford's
running mean, plus the per-type counts. -/
structure VcfStats where
  totalVariants : Nat
  snvCount : Nat
  insCount : Nat
  delCount : Nat
  complexCount : Nat
  quals : List Rat
deriving DecidableEq, Repr

/-- The empty statistics accumulator. -/
def VcfStats.empty : VcfStats :=
  { totalVariants := 0, snvCount := 0, insCount := 0, delCount := 0,
    complexCount := 0, quals := [] }

/-- Folds one parsed variant into the running statistics. -/
def VcfStats.add (s : VcfStats) (v : Variant) : VcfStats :=
  { totalVariants := s.totalVariants + 1
    snvCount := s.snvCount + (if v.vtype = .SNV then 1 else 0)
    insCount := s.insCount + (if v.vtype = .Insertion then 1 else 0)
    delCount := s.delCount + (if v.vtype = .Deletion then 1 else 0)
    complexCount := s.complexCount + (if v.vtype = .Complex then 1 else 0)
    quals := s.quals ++ (match v.qual with | some q => [q] | none => []) }

/-- Mean QUAL over the variants whose QUAL was known. -/
def meanQual (s : VcfStats) : Rat :=
  s.quals.sum / (s.quals.length : Rat)

/-- Number of variants with known QUAL at least 30. -/
def highQualCount (s : VcfStats) : Nat :=
  (s.quals.filter (fun q => decide (30 ≤ q))).length

/-- The streaming parser's state: statistics, retained variants, and the
line / parse-error counters that drive the 20% abort policy. -/
structure ParseState where
  stats : VcfStats
  variants : List Variant
  linesSeen : Nat
  parseErrors : Nat
deriving DecidableEq, Repr

/-- The parser's initial state. -/
def initState : ParseState :=
  { stats := VcfStats.empty, variants := [], linesSeen := 0, parseErrors := 0 }

/-- Consumes one data line: a well-formed line updates the statistics and
is retained, a malformed line is skipped and counted as a parse error. -/
def consumeLine (st : ParseState) (l : List String) : ParseState :=
  match parseFields l with
  | some v =>
      { stats := st.stats.add v, variants := st.variants ++ [v],
        linesSeen := st.linesSeen + 1, parseErrors := st.parseErrors }
  | none =>
      { stats := st.stats, variants := st.variants,
        linesSeen := st.linesSeen + 1, parseErrors := st.parseErrors + 1 }

/-- Modelled from the spec: the streaming single pass over the data lines.
After every line the skipped-line ratio is checked; as soon as parse
errors exceed 20% of the lines seen, parsing aborts with `MalformedFile`. -/
def vcfRun : List (List String) → ParseState → Except ProcError ParseState
  | [], st => .ok st
  | l :: ls, st =>
      let st' := consumeLine st l
      if st'.linesSeen < 5 * st'.parseErrors then .error .MalformedFile
      else vcfRun ls st'

/-- The eight mandatory VCF columns, in order. -/
def vcfMandatoryColumns : List String :=
  ["#CHROM", "POS", "ID", "REF", "ALT", "QUAL", "FILTER", "INFO"]

/-- True on `##`-prefixed metadata header lines. -/
def isMetaLine (l : List String) : Bool :=
  match l with
  | s :: _ => strStartsWith s "##"
  | [] => false

/-- Modelled from the spec: the column header line must carry the 8
mandatory columns (extra FORMAT/sample columns may follow). -/
def isColumnHeader (l : List String) : Bool :=
  vcfMandatoryColumns.isPrefixOf l

/-! ## QualityController -/

/-- Modelled from the spec: the quality verdict with its issue and
recommendation lists. -/
inductive Verdict where
  | Excellent
  | Good
  | Poor
deriving DecidableEq, Repr

/-- A verdict together with its issues and recommendations. -/
structure QualityVerdict where
  verdict : Verdict
  issues : List String
  recommendations : List String
deriving DecidableEq, Repr

/-- Modelled from the spec: the pure VCF threshold rule — mean QUAL at
least 30 with at least 95% of variants at QUAL 30 or more is Excellent,
otherwise mean QUAL at least 20 is Good, otherwise Poor with an issue
naming the failed threshold and a recommendation. -/
def qualityControl (s : VcfStats) : QualityVerdict :=
  if 30 ≤ meanQual s ∧ 19 * s.totalVariants ≤ 20 * highQualCount s then
    { verdict := .Excellent, issues := [], recommendations := [] }
  else if 20 ≤ meanQual s then
    { verdict := .Good, issues := [], recommendations := [] }
  else
    { verdict := .Poor
      issues := ["mean QUAL below 20"]
      recommendations := ["filter variants below QUAL 20 before downstream analysis"] }

/-! ## RiskPanelRegistry (panel data recorded in the repository docs) -/

/-- Diabetes (Type 2) panel: rsIDs and effect sizes as documented in the
repository (TCF7L2 0.34 and 0.29, PPARG -0.14 protective, KCNJ11 0.08,
SLC30A8 0.11).  Chromosome, position and risk allele are not recorded in
the repository; the placeholders below are only carried along — every
theorem matches panel entries by rsID. -/
def diabetesPanel : List SnpPanelEntry :=
  [ { rsid := "rs7903146", chrom := "10", pos := 114758349, riskAllele := "T", effectSize := 34/100 },
    { rsid := "rs12255372", chrom := "10", pos := 114808902, riskAllele := "T", effectSize := 29/100 },
    { rsid := "rs1801282", chrom := "3", pos := 12393125, riskAllele := "G", effectSize := -(14/100) },
    { rsid := "rs5219", chrom := "11", pos := 17409572, riskAllele := "T", effectSize := 8/100 },
    { rsid := "rs13266634", chrom := "8", pos := 118184783, riskAllele := "C", effectSize := 11/100 } ]

/-- Alzheimer's disease panel as documented (APOE e4 1.12, APOE e2 -0.68
protective, CLU 0.15, PICALM 0.09). -/
def alzheimerPanel : List SnpPanelEntry :=
  [ { rsid := "rs429358", chrom := "19", pos := 45411941, riskAllele := "C", effectSize := 112/100 },
    { rsid := "rs7412", chrom := "19", pos := 45412079, riskAllele := "T", effectSize := -(68/100) },
    { rsid := "rs11136000", chrom := "8", pos := 27464519, riskAllele := "T", effectSize := 15/100 },
    { rsid := "rs3851179", chrom := "11", pos := 85868640, riskAllele := "T", effectSize := 9/100 } ]

/-- Heart-disease panel as documented (SORT1 0.29, MIA3 0.29, MTHFD1L
0.25, CDKN2A/B 0.21 — all risk-increasing). -/
def heartPanel : List SnpPanelEntry :=
  [ { rsid := "rs599839", chrom := "1", pos := 109822166, riskAllele := "A", effectSize := 29/100 },
    { rsid := "rs17465637", chrom := "1", pos := 222823529, riskAllele := "C", effectSize := 29/100 },
    { rsid := "rs6922269", chrom := "6", pos := 151040798, riskAllele := "A", effectSize := 25/100 },
    { rsid := "rs1333049", chrom := "9", pos := 22125503, riskAllele := "C", effectSize := 21/100 } ]

/-- Modelled from the spec: the immutable disease-keyed registry of the
three documented panels. -/
def registry : List (String × List SnpPanelEntry) :=
  [ ("Type 2 Diabetes", diabetesPanel),
    ("Alzheimers Disease", alzheimerPanel),
    ("Heart Disease", heartPanel) ]

/-! ## PolygenicRiskCalculator -/

/-- Modelled from the spec: a variant matches a panel entry by rsID, or —
when the uploaded VCF leaves the ID column unpopulated — by exact
chromosome, position and allele equality as the fallback lookup path. -/
def entryMatches (e : SnpPanelEntry) (v : Variant) : Bool :=
  v.id == e.rsid || (v.chrom == e.chrom && v.pos == e.pos && v.alt == e.riskAllele)

/-- True when some uploaded variant matches the entry and its reported
allele agrees with the panel's risk allele. -/
def carriesRiskAllele (vs : List Variant) (e : SnpPanelEntry) : Bool :=
  vs.any (fun v => entryMatches e v && v.alt == e.riskAllele)

/-- The panel entries matched by some uploaded variant. -/
def matchedEntries (panel : List SnpPanelEntry) (vs : List Variant) : List SnpPanelEntry :=
  panel.filter (fun e => vs.any (fun v => entryMatches e v))

/-- The matched panel entries whose risk allele the upload agrees with. -/
def agreeingEntries (panel : List SnpPanelEntry) (vs : List Variant) : List SnpPanelEntry :=
  panel.filter (carriesRiskAllele vs)

/-- Modelled from the spec: the raw score is the sum of effect sizes of
matched variants whose reported allele agrees with the risk allele. -/
def rawScore (panel : List SnpPanelEntry) (vs : List Variant) : Rat :=
  ((agreeingEntries panel vs).map (fun e => e.effectSize)).sum

/-- Modelled from the spec: the theoretical maximum magnitude, the sum of
absolute effect sizes over the full panel. -/
def maxMagnitude (panel : List SnpPanelEntry) : Rat :=
  (panel.map (fun e => |e.effectSize|)).sum

/-- Clamps a rational into the closed interval from `lo` to `hi`. -/
def clampRat (lo hi x : Rat) : Rat :=
  max lo (min hi x)

/-- Modelled from the spec: the fixed risk-category thresholds — below
0.50 Low, from 0.50 up to but excluding 0.70 Moderate, 0.70 and above
High. -/
def riskCategory (s : Rat) : RiskCategory :=
  if s < 1/2 then .Low
  else if s < 7/10 then .Moderate
  else .High

/-- Modelled from the spec: PolygenicRiskCalculator for one disease panel.
With at least one matched panel variant the normalized score is
`clamp(0.5 + rawScore / (2 * maxMagnitude), 0, 1)`; with zero matches it
is the population-average 0.5 with the fallback flag raised. -/
def calculatePrs (disease : String) (panel : List SnpPanelEntry) (vs : List Variant) : PrsResult :=
  let matched := matchedEntries panel vs
  let score :=
    if matched.isEmpty then (1 : Rat)/2
    else clampRat 0 1 (1/2 + rawScore panel vs / (2 * maxMagnitude panel))
  { disease := disease
    rawScore := rawScore panel vs
    normalizedScore := score
    category := riskCategory score
    matchedCount := matched.length
    panelSize := panel.length
    fallback := matched.isEmpty }

/-! ## GenomicProcessingPipeline -/

/-- Modelled from the spec: the immutable result handed to the caller. -/
structure ProcessingResult where
  fileType : FileType
  stats : VcfStats
  verdict : QualityVerdict
  matchedVariants : List Variant
  prsResults : List PrsResult
  sampled : Bool
  recordCount : Nat
deriving DecidableEq, Repr

/-- True when a parsed variant is relevant to any registered panel. -/
def panelRelevant (v : Variant) : Bool :=
  registry.any (fun p => p.2.any (fun e => entryMatches e v))

/-- Modelled from the spec: the retention cap beyond which only aggregate
statistics are kept for every record and the result is marked sampled. -/
def sampleCap : Nat := 50000

/-- Assembles the pipeline result from a finished parse: quality verdict,
panel-relevant variant list, and one PRS per registered disease. -/
def assembleResult (st : ParseState) : ProcessingResult :=
  let matched := st.variants.filter panelRelevant
  { fileType := .Vcf
    stats := st.stats
    verdict := qualityControl st.stats
    matchedVariants := matched
    prsResults := registry.map (fun p => calculatePrs p.1 p.2 matched)
    sampled := decide (sampleCap < st.stats.totalVariants)
    recordCount := st.stats.totalVariants }

/-- Modelled from the spec: the VCF flow of the pipeline — skip `##`
metadata, validate the mandatory column header (`MalformedHeader`
otherwise), reject files with zero data lines (`EmptyFile`), stream the
data lines and assemble the result; parse aborts propagate unchanged. -/
def vcfPipeline (lines : List (List String)) : Except ProcError ProcessingResult :=
  match lines.dropWhile isMetaLine with
  | [] => .error .MalformedHeader
  | hdr :: dataLines =>
      if isColumnHeader hdr then
        if dataLines.isEmpty then .error .EmptyFile
        else
          match vcfRun dataLines initState with
          | .error e => .error e
          | .ok st => .ok (assembleResult st)
      else .error .MalformedHeader

/-- Modelled from the spec: the synchronous entry point
`process(input, filename)`.  Detection picks the VCF flow; the FASTQ
analyzer is not needed by any claim of this development and is not
modelled, so non-VCF inputs stop at detection. -/
def process (lines : List (List String)) (filename : String) : Except ProcError ProcessingResult :=
  match detectFormat lines filename with
  | .Vcf => vcfPipeline lines
  | .Fastq => .error .UnsupportedFormat
  | .Unknown => .error .UnsupportedFormat

/-! ## Frontend PRS chart (embedded from src/components/charts/prs-chart.tsx) -/

/-- One entry of the chart data returned by `fetchPrsChartData`. -/
structure PrsChartData where
  condition : String
  score : Rat
  percentile : Nat
  riskLevel : String
  populationAverage : Rat
deriving DecidableEq, Repr

/-- Embedded from `src/components/charts/prs-chart.tsx`: the mock API
function resolves — after a simulated delay, which is pure timing and
outside the embedding — to a fixed six-condition list, ignoring `userId`. -/
def fetchPrsChartData (_userId : String) : List PrsChartData :=
  [ { condition := "Type 2 Diabetes", score := 75/100, percentile := 82,
      riskLevel := "high", populationAverage := 50/100 },
    { condition := "Coronary Artery Disease", score := 45/100, percentile := 35,
      riskLevel := "low", populationAverage := 50/100 },
    { condition := "Alzheimer\x27s Disease", score := 62/100, percentile := 68,
      riskLevel := "moderate", populationAverage := 50/100 },
    { condition := "Breast Cancer", score := 38/100, percentile := 28,
      riskLevel := "low", populationAverage := 50/100 },
    { condition := "Prostate Cancer", score := 55/100, percentile := 55,
      riskLevel := "moderate", populationAverage := 50/100 },
    { condition := "Rheumatoid Arthritis", score := 42/100, percentile := 32,
      riskLevel := "low", populationAverage := 50/100 } ]

/-- The lowercase label the chart component uses for each risk category. -/
def categoryLabel : RiskCategory → String
  | .Low => "low"
  | .Moderate => "moderate"
  | .High => "high"

/-! ## Concrete scenario data -/

/-- Scenario A input: the documented 10-record all-SNV VCF with QUAL
values ranging 760 to 999 and mean 884.8, tab-split into fields. -/
def scenarioALines : List (List String) :=
  [ ["1", "100", "rs101", "A", "G", "760", "PASS", "."],
    ["2", "200", "rs102", "C", "T", "999", "PASS", "."],
    ["2", "300", "rs103", "G", "A", "850", "PASS", "."],
    ["3", "400", "rs104", "T", "C", "900", "PASS", "."],
    ["8", "500", "rs105", "A", "T", "880", "PASS", "."],
    ["11", "600", "rs106", "C", "G", "890", "PASS", "."],
    ["11", "700", "rs107", "G", "T", "870", "PASS", "."],
    ["12", "800", "rs108", "T", "A", "860", "PASS", "."],
    ["19", "900", "rs109", "A", "C", "920", "PASS", "."],
    ["X", "1000", "rs110", "C", "A", "919", "PASS", "."] ]

/-- The parser state reached after streaming the scenario A lines. -/
def scenarioAState : ParseState :=
  { stats :=
      { totalVariants := 10, snvCount := 10, insCount := 0, delCount := 0,
        complexCount := 0,
        quals := [760, 999, 850, 900, 880, 890, 870, 860, 920, 919] }
    variants :=
      [ { chrom := "1", pos := 100, id := "rs101", ref := "A", alt := "G", qual := some 760, vtype := .SNV },
        { chrom := "2", pos := 200, id := "rs102", ref := "C", alt := "T", qual := some 999, vtype := .SNV },
        { chrom := "2", pos := 300, id := "rs103", ref := "G", alt := "A", qual := some 850, vtype := .SNV },
        { chrom := "3", pos := 400, id := "rs104", ref := "T", alt := "C", qual := some 900, vtype := .SNV },
        { chrom := "8", pos := 500, id := "rs105", ref := "A", alt := "T", qual := some 880, vtype := .SNV },
        { chrom := "11", pos := 600, id := "rs106", ref := "C", alt := "G", qual := some 890, vtype := .SNV },
        { chrom := "11", pos := 700, id := "rs107", ref := "G", alt := "T", qual := some 870, vtype := .SNV },
        { chrom := "12", pos := 800, id := "rs108", ref := "T", alt := "A", qual := some 860, vtype := .SNV },
        { chrom := "19", pos := 900, id := "rs109", ref := "A", alt := "C", qual := some 920, vtype := .SNV },
        { chrom := "X", pos := 1000, id := "rs110", ref := "C", alt := "A", qual := some 919, vtype := .SNV } ]
    linesSeen := 10
    parseErrors := 0 }

/-- Scenario B input: five uploaded variants matching all five diabetes
panel rsIDs, each reporting the panel's risk allele. -/
def scenarioBVariants : List Variant :=
  [ { chrom := "10", pos := 114758349, id := "rs7903146", ref := "C", alt := "T", qual := some 99, vtype := .SNV },
    { chrom := "10", pos := 114808902, id := "rs12255372", ref := "G", alt := "T", qual := some 99, vtype := .SNV },
    { chrom := "3", pos := 12393125, id := "rs1801282", ref := "C", alt := "G", qual := some 99, vtype := .SNV },
    { chrom := "11", pos := 17409572, id := "rs5219", ref := "C", alt := "T", qual := some 99, vtype := .SNV },
    { chrom := "8", pos := 118184783, id := "rs13266634", ref := "T", alt := "C", qual := some 99, vtype := .SNV } ]

/-- An upload agreeing with every entry of the all-risk heart panel. -/
def heartAllRiskVariants : List Variant :=
  [ { chrom := "1", pos := 109822166, id := "rs599839", ref := "G", alt := "A", qual := some 99, vtype := .SNV },
    { chrom := "1", pos := 222823529, id := "rs17465637", ref := "T", alt := "C", qual := some 99, vtype := .SNV },
    { chrom := "6", pos := 151040798, id := "rs6922269", ref := "G", alt := "A", qual := some 99, vtype := .SNV },
    { chrom := "9", pos := 22125503, id := "rs1333049", ref := "G", alt := "C", qual := some 99, vtype := .SNV } ]

/-- A synthetic panel with only protective (negative) effect sizes, used
to exhibit the protective extreme of the normalization formula. -/
def protectivePanel : List SnpPanelEntry :=
  [ { rsid := "rsP1", chrom := "1", pos := 1000, riskAllele := "A", effectSize := -(14/100) },
    { rsid := "rsP2", chrom := "2", pos := 2000, riskAllele := "C", effectSize := -(10/100) } ]

/-- An upload agreeing with both entries of the protective panel. -/
def protectiveVariants : List Variant :=
  [ { chrom := "1", pos := 1000, id := "rsP1", ref := "G", alt := "A", qual := some 99, vtype := .SNV },
    { chrom := "2", pos := 2000, id := "rsP2", ref := "T", alt := "C", qual := some 99, vtype := .SNV } ]

/-- A well-formed VCF metadata line and column header, as field lists. -/
def vcfPreamble : List (List String) :=
  [ ["##fileformat=VCFv4.2"], vcfMandatoryColumns ]

/-- A data line with a single column: malformed (wrong column count). -/
def badLine : List String :=
  ["garbage"]

/-! ## Helper lemmas -/

lemma riskCategory_low {s : Rat} (h : s < 1/2) : riskCategory s = .Low := by
  unfold riskCategory
  rw [if_pos h]

lemma riskCategory_moderate {s : Rat} (h1 : 1/2 ≤ s) (h2 : s < 7/10) :
    riskCategory s = .Moderate := by
  unfold riskCategory
  rw [if_neg (not_lt.mpr h1), if_pos h2]

lemma riskCategory_high {s : Rat} (h : 7/10 ≤ s) : riskCategory s = .High := by
  have h1 : ¬ s < 1/2 := not_lt.mpr (le_trans (by norm_num) h)
  unfold riskCategory
  rw [if_neg h1, if_neg (not_lt.mpr h)]

lemma riskCategory_iff (s : Rat) :
    (riskCategory s = .Low ↔ s < 1/2)
    ∧ (riskCategory s = .Moderate ↔ 1/2 ≤ s ∧ s < 7/10)
    ∧ (riskCategory s = .High ↔ 7/10 ≤ s) := by
  rcases lt_or_le s (1/2) with h | h1
  · rw [riskCategory_low h]
    exact ⟨⟨fun _ => h, fun _ => rfl⟩,
      ⟨fun hh => (nomatch hh), fun hh => absurd hh.1 (not_le.mpr h)⟩,
      ⟨fun hh => (nomatch hh),
       fun hh => absurd h (not_lt.mpr (le_trans (by norm_num) hh))⟩⟩
  · rcases lt_or_le s (7/10) with h2 | h3
    · rw [riskCategory_moderate h1 h2]
      exact ⟨⟨fun hh => (nomatch hh), fun hh => absurd h1 (not_le.mpr hh)⟩,
        ⟨fun _ => ⟨h1, h2⟩, fun _ => rfl⟩,
        ⟨fun hh => (nomatch hh), fun hh => absurd h2 (not_lt.mpr hh)⟩⟩
    · rw [riskCategory_high h3]
      exact ⟨⟨fun hh => (nomatch hh),
         fun hh => absurd h3 (not_le.mpr (lt_of_lt_of_le hh (by norm_num)))⟩,
        ⟨fun hh => (nomatch hh), fun hh => absurd hh.2 (not_lt.mpr h3)⟩,
        ⟨fun _ => h3, fun _ => rfl⟩⟩

lemma calculatePrs_category (d : String) (panel : List SnpPanelEntry) (vs : List Variant) :
    (calculatePrs d panel vs).category
      = riskCategory (calculatePrs d panel vs).normalizedScore := rfl

lemma calculatePrs_fallback (d : String) (panel : List SnpPanelEntry) (vs : List Variant) :
    (calculatePrs d panel vs).fallback = (matchedEntries panel vs).isEmpty := rfl

lemma calculatePrs_matchedCount (d : String) (panel : List SnpPanelEntry) (vs : List Variant) :
    (calculatePrs d panel vs).matchedCount = (matchedEntries panel vs).length := rfl

lemma calculatePrs_panelSize (d : String) (panel : List SnpPanelEntry) (vs : List Variant) :
    (calculatePrs d panel vs).panelSize = panel.length := rfl

lemma calculatePrs_score_of_empty (d : String) (panel : List SnpPanelEntry) (vs : List Variant)
    (h : (matchedEntries panel vs).isEmpty = true) :
    (calculatePrs d panel vs).normalizedScore = 1/2 := by
  simp only [calculatePrs, h, if_true]

lemma calculatePrs_score_of_matched (d : String) (panel : List SnpPanelEntry) (vs : List Variant)
    (h : (matchedEntries panel vs).isEmpty = false) :
    (calculatePrs d panel vs).normalizedScore
      = clampRat 0 1 (1/2 + rawScore panel vs / (2 * maxMagnitude panel)) := by
  simp only [calculatePrs, h, Bool.false_eq_true, if_false]

/-! ## Claim theorems -/

/-- C3: for every PrsResult the risk category is determined solely from
the normalized score by the fixed thresholds — below 0.50 Low, from 0.50
up to but excluding 0.70 Moderate, 0.70 and above High — and the chart
component's hard-coded score/riskLevel pairs agree with these thresholds. -/
theorem prs_risk_thresholds :
    ∀ (d : String) (panel : List SnpPanelEntry) (vs : List Variant),
    ((calculatePrs d panel vs).category = .Low
        ↔ (calculatePrs d panel vs).normalizedScore < 1/2)
    ∧ ((calculatePrs d panel vs).category = .Moderate
        ↔ 1/2 ≤ (calculatePrs d panel vs).normalizedScore
          ∧ (calculatePrs d panel vs).normalizedScore < 7/10)
    ∧ ((calculatePrs d panel vs).category = .High
        ↔ 7/10 ≤ (calculatePrs d panel vs).normalizedScore)
    ∧ (∀ u : String, ∀ e ∈ fetchPrsChartData u,
        e.riskLevel = categoryLabel (riskCategory e.score)) := by
  intro d panel vs
  obtain ⟨hl, hm, hh⟩ := riskCategory_iff (calculatePrs d panel vs).normalizedScore
  refine ⟨?_, ?_, ?_, ?_⟩
  · rw [calculatePrs_category]; exact hl
  · rw [calculatePrs_category]; exact hm
  · rw [calculatePrs_category]; exact hh
  · intro u e he
    fin_cases he
    · show ("high" : String) = categoryLabel (riskCategory (75/100))
      rw [riskCategory_high (by norm_num)]; rfl
    · show ("low" : String) = categoryLabel (riskCategory (45/100))
      rw [riskCategory_low (by norm_num)]; rfl
    · show ("moderate" : String) = categoryLabel (riskCategory (62/100))
      rw [riskCategory_moderate (by norm_num) (by norm_num)]; rfl
    · show ("low" : String) = categoryLabel (riskCategory (38/100))
      rw [riskCategory_low (by norm_num)]; rfl
    · show ("moderate" : String) = categoryLabel (riskCategory (55/100))
      rw [riskCategory_moderate (by norm_num) (by norm_num)]; rfl
    · show ("low" : String) = categoryLabel (riskCategory (42/100))
      rw [riskCategory_low (by norm_num)]; rfl

/-- C4: zero matched panel variants yield the population-average result —
normalized score 0.5, category Moderate — and the fallback flag equals
emptiness of the matched-entry list, so a fallback score is always
distinguishable from a personalised one. -/
theorem prs_population_fallback :
    ∀ (d : String) (panel : List SnpPanelEntry) (vs : List Variant),
    ((calculatePrs d panel vs).fallback = (matchedEntries panel vs).isEmpty)
    ∧ ((matchedEntries panel vs).isEmpty = true →
        (calculatePrs d panel vs).normalizedScore = 1/2
        ∧ (calculatePrs d panel vs).fallback = true
        ∧ (calculatePrs d panel vs).category = .Moderate) := by
  intro d panel vs
  refine ⟨calculatePrs_fallback d panel vs,
    fun h => ⟨calculatePrs_score_of_empty d panel vs h, ?_, ?_⟩⟩
  · rw [calculatePrs_fallback]; exact h
  · rw [calculatePrs_category, calculatePrs_score_of_empty d panel vs h]
    exact riskCategory_moderate (by norm_num) (by norm_num)

/-- Witness for C4: an upload matching none of the Alzheimer panel
entries scores the flagged population average. -/
theorem prs_population_fallback_witness :
    (calculatePrs "Alzheimers Disease" alzheimerPanel []).normalizedScore = 1/2
    ∧ (calculatePrs "Alzheimers Disease" alzheimerPanel []).fallback = true
    ∧ (calculatePrs "Alzheimers Disease" alzheimerPanel []).category = .Moderate :=
  (prs_population_fallback "Alzheimers Disease" alzheimerPanel []).2 (by rfl)

/-- C7: variant-type derivation — Complex for multi-allelic ALT, SNV for
the 1/1 length pattern, Insertion when ALT is longer, Deletion when ALT
is shorter, Complex for any other pattern; and every parsed variant's
stored type is this classification of its REF and ALT. -/
theorem variant_classification :
    ∀ ref alt : String,
    (alt.data.contains ',' = true → classifyVariant ref alt = .Complex)
    ∧ (alt.data.contains ',' = false →
        ((ref.length = 1 ∧ alt.length = 1) → classifyVariant ref alt = .SNV)
        ∧ (ref.length < alt.length → classifyVariant ref alt = .Insertion)
        ∧ (alt.length < ref.length → classifyVariant ref alt = .Deletion)
        ∧ (ref.length = alt.length ∧ ref.length ≠ 1 → classifyVariant ref alt = .Complex))
    ∧ (∀ fields v, parseFields fields = some v → v.vtype = classifyVariant v.ref v.alt) := by
  intro ref alt
  refine ⟨fun h => ?_, fun h => ?_, fun fields v hp => ?_⟩
  · unfold classifyVariant
    rw [if_pos h]
  · have hc : ¬ (alt.data.contains ',' = true) := by rw [h]; exact Bool.false_ne_true
    refine ⟨fun hsnv => ?_, fun hins => ?_, fun hdel => ?_, fun hcx => ?_⟩
    · unfold classifyVariant
      rw [if_neg hc, if_pos hsnv]
    · unfold classifyVariant
      rw [if_neg hc, if_neg (by rintro ⟨ha, hb⟩; omega), if_pos hins]
    · unfold classifyVariant
      rw [if_neg hc, if_neg (by rintro ⟨ha, hb⟩; omega),
        if_neg (by omega), if_pos hdel]
    · obtain ⟨he, hne⟩ := hcx
      unfold classifyVariant
      rw [if_neg hc, if_neg (by rintro ⟨ha, hb⟩; exact hne ha),
        if_neg (by omega), if_neg (by omega)]
  · unfold parseFields at hp
    split at hp
    · split at hp
      · injection hp with hp
        subst hp
        rfl
      · exact absurd hp (by simp)
    · exact absurd hp (by simp)

/-- Witness for C7: a one-base REF with a two-base ALT is an Insertion. -/
theorem variant_classification_witness : classifyVariant "A" "AT" = .Insertion :=
  ((variant_classification "A" "AT").2.1 (by decide)).2.1 (by decide)

/-- C10: the chart's data fetcher ignores its userId — any two users
resolve to the same fixed six-condition list with population average 0.50
throughout. -/
theorem prsChart_user_independent :
    ∀ u₁ u₂ : String,
    fetchPrsChartData u₁ = fetchPrsChartData u₂
    ∧ fetchPrsChartData u₁ =
      [ ⟨"Type 2 Diabetes", 75/100, 82, "high", 50/100⟩,
        ⟨"Coronary Artery Disease", 45/100, 35, "low", 50/100⟩,
        ⟨"Alzheimer\x27s Disease", 62/100, 68, "moderate", 50/100⟩,
        ⟨"Breast Cancer", 38/100, 28, "low", 50/100⟩,
        ⟨"Prostate Cancer", 55/100, 55, "moderate", 50/100⟩,
        ⟨"Rheumatoid Arthritis", 42/100, 32, "low", 50/100⟩ ] :=
  fun _ _ => ⟨rfl, rfl⟩

/-! ## Concrete score computations for the diabetes scenario -/

lemma matchedEntries_diabetes_scenarioB :
    matchedEntries diabetesPanel scenarioBVariants = diabetesPanel :=
  List.filter_eq_self.mpr (by decide)

lemma agreeingEntries_diabetes_scenarioB :
    agreeingEntries diabetesPanel scenarioBVariants = diabetesPanel :=
  List.filter_eq_self.mpr (by decide)

lemma rawScore_diabetes_scenarioB : rawScore diabetesPanel scenarioBVariants = 17/25 := by
  rw [rawScore, agreeingEntries_diabetes_scenarioB]
  simp only [diabetesPanel, List.map_cons, List.map_nil, List.sum_cons, List.sum_nil]
  norm_num

lemma maxMagnitude_diabetes : maxMagnitude diabetesPanel = 24/25 := by
  rw [maxMagnitude]
  simp only [diabetesPanel, List.map_cons, List.map_nil, List.sum_cons, List.sum_nil]
  rw [abs_of_nonneg (by norm_num : (0:Rat) ≤ 34/100),
    abs_of_nonneg (by norm_num : (0:Rat) ≤ 29/100),
    abs_of_nonpos (by norm_num : (-(14/100) : Rat) ≤ 0),
    abs_of_nonneg (by norm_num : (0:Rat) ≤ 8/100),
    abs_of_nonneg (by norm_num : (0:Rat) ≤ 11/100)]
  norm_num

lemma diabetes_scenarioB_score :
    (calculatePrs "Type 2 Diabetes" diabetesPanel scenarioBVariants).normalizedScore = 41/48 := by
  have hne : (matchedEntries diabetesPanel scenarioBVariants).isEmpty = false := by
    rw [matchedEntries_diabetes_scenarioB]; rfl
  rw [calculatePrs_score_of_matched _ _ _ hne, rawScore_diabetes_scenarioB, maxMagnitude_diabetes]
  rw [show (1:Rat)/2 + (17/25) / (2 * (24/25)) = 41/48 by norm_num]
  rw [clampRat, min_eq_right (by norm_num), max_eq_right (by norm_num)]

/-- C1 counterexample: on the all-five-matched diabetes upload the
spec's normalization formula does not yield approximately 0.670 — the
computed score exceeds 0.670 by more than 0.18 (it is 41/48). -/
theorem prs_scenarioB_counterexample :
    (calculatePrs "Type 2 Diabetes" diabetesPanel scenarioBVariants).fallback = false
    ∧ (calculatePrs "Type 2 Diabetes" diabetesPanel scenarioBVariants).normalizedScore ≠ 67/100
    ∧ 67/100 + 18/100
        < (calculatePrs "Type 2 Diabetes" diabetesPanel scenarioBVariants).normalizedScore := by
  refine ⟨?_, ?_, ?_⟩
  · rw [calculatePrs_fallback, matchedEntries_diabetes_scenarioB]; rfl
  · rw [diabetes_scenarioB_score]; norm_num
  · rw [diabetes_scenarioB_score]; norm_num

/-- C1 as amended: the diabetes panel with all five variants matched in
risk-allele agreement yields normalized score 41/48 (approximately
0.854), risk category High, fallback false, 5 of 5 entries matched. -/
theorem prs_scenarioB_corrected :
    (calculatePrs "Type 2 Diabetes" diabetesPanel scenarioBVariants).normalizedScore = 41/48
    ∧ (calculatePrs "Type 2 Diabetes" diabetesPanel scenarioBVariants).category = .High
    ∧ (calculatePrs "Type 2 Diabetes" diabetesPanel scenarioBVariants).fallback = false
    ∧ (calculatePrs "Type 2 Diabetes" diabetesPanel scenarioBVariants).matchedCount = 5
    ∧ (calculatePrs "Type 2 Diabetes" diabetesPanel scenarioBVariants).panelSize = 5 := by
  refine ⟨diabetes_scenarioB_score, ?_, ?_, ?_, rfl⟩
  · rw [calculatePrs_category, diabetes_scenarioB_score]
    exact riskCategory_high (by norm_num)
  · rw [calculatePrs_fallback, matchedEntries_diabetes_scenarioB]; rfl
  · rw [calculatePrs_matchedCount, matchedEntries_diabetes_scenarioB]; rfl

/-! ## General normalization lemmas -/

lemma sum_map_abs_of_nonneg (l : List Rat) (h : ∀ x ∈ l, 0 ≤ x) :
    (l.map fun x => |x|).sum = l.sum := by
  induction l with
  | nil => rfl
  | cons a t ih =>
      simp only [List.map_cons, List.sum_cons]
      rw [abs_of_nonneg (h a (by simp)), ih (fun x hx => h x (by simp [hx]))]

lemma sum_map_abs_of_nonpos (l : List Rat) (h : ∀ x ∈ l, x ≤ 0) :
    (l.map fun x => |x|).sum = -(l.sum) := by
  induction l with
  | nil => simp
  | cons a t ih =>
      simp only [List.map_cons, List.sum_cons]
      rw [abs_of_nonpos (h a (by simp)), ih (fun x hx => h x (by simp [hx]))]
      ring

lemma maxMagnitude_eq (panel : List SnpPanelEntry) :
    maxMagnitude panel = ((panel.map fun e => e.effectSize).map fun x => |x|).sum := by
  rw [maxMagnitude, List.map_map]
  rfl

/-- C2 as amended: with at least one matched panel variant the normalized
score is exactly `clamp(0.5 + rawScore / (2 * maxMagnitude), 0, 1)`; the
extreme 1.0 is attained by an upload agreeing with every entry of a panel
whose effect sizes are all non-negative, and the extreme 0.0 by an upload
agreeing with every entry of a panel whose effect sizes are all
non-positive.  For a mixed panel (risk and protective entries together,
as in every documented panel) the all-risk-allele upload does not reach
1.0. -/
theorem prs_normalization_formula :
    ∀ (d : String) (panel : List SnpPanelEntry) (vs : List Variant),
    matchedEntries panel vs ≠ [] →
    ((calculatePrs d panel vs).normalizedScore
        = clampRat 0 1 (1/2 + rawScore panel vs / (2 * maxMagnitude panel)))
    ∧ ((∀ e ∈ panel, 0 ≤ e.effectSize) → (∀ e ∈ panel, carriesRiskAllele vs e = true)
        → 0 < maxMagnitude panel → (calculatePrs d panel vs).normalizedScore = 1)
    ∧ ((∀ e ∈ panel, e.effectSize ≤ 0) → (∀ e ∈ panel, carriesRiskAllele vs e = true)
        → 0 < maxMagnitude panel → (calculatePrs d panel vs).normalizedScore = 0) := by
  intro d panel vs hne
  have hemp : (matchedEntries panel vs).isEmpty = false := by
    cases hm : matchedEntries panel vs with
    | nil => exact absurd hm hne
    | cons a t => rfl
  refine ⟨calculatePrs_score_of_matched d panel vs hemp,
    fun hnn hall hpos => ?_, fun hnp hall hpos => ?_⟩
  · have hagree : agreeingEntries panel vs = panel := List.filter_eq_self.mpr hall
    have hraw : rawScore panel vs = (panel.map fun e => e.effectSize).sum := by
      rw [rawScore, hagree]
    have hmax : maxMagnitude panel = (panel.map fun e => e.effectSize).sum := by
      rw [maxMagnitude_eq, sum_map_abs_of_nonneg]
      intro x hx
      obtain ⟨e, he, rfl⟩ := List.mem_map.mp hx
      exact hnn e he
    rw [calculatePrs_score_of_matched d panel vs hemp, hraw, ← hmax]
    rw [show maxMagnitude panel / (2 * maxMagnitude panel) = 1/2 from by
      rw [div_eq_iff (ne_of_gt (mul_pos two_pos hpos))]; ring]
    rw [show (1:Rat)/2 + 1/2 = 1 from by norm_num]
    rw [clampRat, min_self, max_eq_right (by norm_num : (0:Rat) ≤ 1)]
  · have hagree : agreeingEntries panel vs = panel := List.filter_eq_self.mpr hall
    have hraw : rawScore panel vs = (panel.map fun e => e.effectSize).sum := by
      rw [rawScore, hagree]
    have hsum : (panel.map fun e => e.effectSize).sum = -(maxMagnitude panel) := by
      rw [maxMagnitude_eq, sum_map_abs_of_nonpos]
      · ring
      · intro x hx
        obtain ⟨e, he, rfl⟩ := List.mem_map.mp hx
        exact hnp e he
    rw [calculatePrs_score_of_matched d panel vs hemp, hraw, hsum]
    rw [show -(maxMagnitude panel) / (2 * maxMagnitude panel) = -(1/2) from by
      rw [div_eq_iff (ne_of_gt (mul_pos two_pos hpos))]; ring]
    rw [show (1:Rat)/2 + -(1/2) = 0 from by norm_num]
    rw [clampRat, min_eq_right (by norm_num : (0:Rat) ≤ 1), max_self]

/-- C2 counterexample: the diabetes panel upload carrying every listed
risk allele (agreement with all five entries) scores strictly below 1.0,
because the panel contains a protective (negative) effect size. -/
theorem prs_normalization_counterexample :
    (∀ e ∈ diabetesPanel, carriesRiskAllele scenarioBVariants e = true)
    ∧ matchedEntries diabetesPanel scenarioBVariants ≠ []
    ∧ (calculatePrs "Type 2 Diabetes" diabetesPanel scenarioBVariants).normalizedScore ≠ 1 := by
  refine ⟨by decide, ?_, ?_⟩
  · rw [matchedEntries_diabetes_scenarioB]
    unfold diabetesPanel
    exact List.cons_ne_nil _ _
  · rw [diabetes_scenarioB_score]; norm_num

lemma maxMagnitude_heart : maxMagnitude heartPanel = 26/25 := by
  rw [maxMagnitude]
  simp only [heartPanel, List.map_cons, List.map_nil, List.sum_cons, List.sum_nil]
  rw [abs_of_nonneg (by norm_num : (0:Rat) ≤ 29/100),
    abs_of_nonneg (by norm_num : (0:Rat) ≤ 25/100),
    abs_of_nonneg (by norm_num : (0:Rat) ≤ 21/100)]
  norm_num

lemma maxMagnitude_protective : maxMagnitude protectivePanel = 6/25 := by
  rw [maxMagnitude]
  simp only [protectivePanel, List.map_cons, List.map_nil, List.sum_cons, List.sum_nil]
  rw [abs_of_nonpos (by norm_num : (-(14/100) : Rat) ≤ 0),
    abs_of_nonpos (by norm_num : (-(10/100) : Rat) ≤ 0)]
  norm_num

/-- Witness for C2: the all-non-negative heart panel reaches 1.0 on an
upload agreeing with every entry, and an all-protective panel reaches
0.0. -/
theorem prs_normalization_witness :
    (calculatePrs "Heart Disease" heartPanel heartAllRiskVariants).normalizedScore = 1
    ∧ (calculatePrs "Protective" protectivePanel protectiveVariants).normalizedScore = 0 := by
  constructor
  · refine (prs_normalization_formula "Heart Disease" heartPanel heartAllRiskVariants
      (List.ne_nil_of_length_pos (by decide))).2.1 ?_ (by decide) ?_
    · intro e he
      fin_cases he <;> norm_num
    · rw [maxMagnitude_heart]; norm_num
  · refine (prs_normalization_formula "Protective" protectivePanel protectiveVariants
      (List.ne_nil_of_length_pos (by decide))).2.2 ?_ (by decide) ?_
    · intro e he
      fin_cases he <;> norm_num
    · rw [maxMagnitude_protective]; norm_num

/-! ## Quality controller facts -/

lemma scenarioA_mean : meanQual scenarioAState.stats = 4424/5 := by
  norm_num [meanQual, scenarioAState]

/-- C6: the quality controller is a pure threshold function — Excellent
exactly when mean QUAL is at least 30 and at least 95% of variants have
QUAL at least 30, Good exactly when not Excellent but mean QUAL at least
20, and Poor otherwise with a non-empty issue and recommendation list —
and the documented 10-record all-SNV VCF with mean QUAL 884.8 parses to
statistics judged Excellent. -/
theorem quality_controller_thresholds :
    (∀ s : VcfStats,
      ((qualityControl s).verdict = .Excellent
          ↔ 30 ≤ meanQual s ∧ 19 * s.totalVariants ≤ 20 * highQualCount s)
      ∧ ((qualityControl s).verdict = .Good
          ↔ ¬(30 ≤ meanQual s ∧ 19 * s.totalVariants ≤ 20 * highQualCount s)
            ∧ 20 ≤ meanQual s)
      ∧ ((qualityControl s).verdict = .Poor →
          (qualityControl s).issues ≠ [] ∧ (qualityControl s).recommendations ≠ []))
    ∧ (vcfRun scenarioALines initState = .ok scenarioAState
        ∧ scenarioAState.stats.totalVariants = 10
        ∧ scenarioAState.stats.snvCount = 10
        ∧ meanQual scenarioAState.stats = 4424/5
        ∧ (qualityControl scenarioAState.stats).verdict = .Excellent) := by
  constructor
  · intro s
    unfold qualityControl
    split_ifs with h1 h2
    · exact ⟨⟨fun _ => h1, fun _ => rfl⟩,
        ⟨fun hh => (nomatch hh), fun hh => absurd h1 hh.1⟩,
        fun hh => (nomatch hh)⟩
    · exact ⟨⟨fun hh => (nomatch hh), fun hh => absurd hh h1⟩,
        ⟨fun _ => ⟨h1, h2⟩, fun _ => rfl⟩,
        fun hh => (nomatch hh)⟩
    · exact ⟨⟨fun hh => (nomatch hh), fun hh => absurd hh h1⟩,
        ⟨fun hh => (nomatch hh), fun hh => absurd hh.2 h2⟩,
        fun _ => ⟨List.cons_ne_nil _ _, List.cons_ne_nil _ _⟩⟩
  · have hcond : 30 ≤ meanQual scenarioAState.stats
        ∧ 19 * scenarioAState.stats.totalVariants ≤ 20 * highQualCount scenarioAState.stats :=
      ⟨by rw [scenarioA_mean]; norm_num, by decide⟩
    refine ⟨rfl, rfl, rfl, scenarioA_mean, ?_⟩
    unfold qualityControl
    rw [if_pos hcond]


/-! ## Data-model invariants -/

/-- The sum of the per-type counts equals the total variant count. -/
def statsInvariant (s : VcfStats) : Prop :=
  s.snvCount + s.insCount + s.delCount + s.complexCount = s.totalVariants

/-- Normalized score in the unit interval and matched count bounded by
panel size. -/
def prsInvariant (r : PrsResult) : Prop :=
  (0 ≤ r.normalizedScore ∧ r.normalizedScore ≤ 1) ∧ r.matchedCount ≤ r.panelSize

/-- Both data-model invariants of a pipeline result. -/
def resultInvariant (res : ProcessingResult) : Prop :=
  statsInvariant res.stats ∧ ∀ r ∈ res.prsResults, prsInvariant r

/-- A successful run satisfies the result invariants; a failed run
produced no result. -/
def processInvariant : Except ProcError ProcessingResult → Prop
  | .ok res => resultInvariant res
  | .error _ => True

lemma statsInvariant_add (s : VcfStats) (v : Variant)
    (h : statsInvariant s) : statsInvariant (s.add v) := by
  simp only [statsInvariant, VcfStats.add] at h ⊢
  cases hv : v.vtype <;> simp [hv] <;> omega

/-! ## Malformed-line accounting -/

lemma consumeLine_linesSeen (st : ParseState) (l : List String) :
    (consumeLine st l).linesSeen = st.linesSeen + 1 := by
  unfold consumeLine
  cases parseFields l <;> rfl

lemma consumeLine_parseErrors (st : ParseState) (l : List String) :
    (consumeLine st l).parseErrors
      = st.parseErrors + (if malformedLine l then 1 else 0) := by
  unfold consumeLine malformedLine
  cases parseFields l <;> simp

lemma consumeLine_total (st : ParseState) (l : List String) :
    (consumeLine st l).stats.totalVariants + (consumeLine st l).parseErrors
      = st.stats.totalVariants + st.parseErrors + 1 := by
  unfold consumeLine
  cases parseFields l <;> simp [VcfStats.add] <;> omega

lemma consumeLine_stats (st : ParseState) (l : List String)
    (h : statsInvariant st.stats) : statsInvariant (consumeLine st l).stats := by
  unfold consumeLine
  cases parseFields l with
  | none => exact h
  | some v => exact statsInvariant_add st.stats v h

lemma countMalformed_cons (l : List String) (ls : List (List String)) :
    countMalformed (l :: ls) = (if malformedLine l then 1 else 0) + countMalformed ls := by
  by_cases h : malformedLine l
  · simp only [countMalformed, List.filter_cons, h, if_true, List.length_cons]
    omega
  · simp only [countMalformed, List.filter_cons, h, if_false]
    simp [h]

lemma vcfRun_ok_facts :
    ∀ (lines : List (List String)) (st st' : ParseState),
    vcfRun lines st = .ok st' →
    ¬ (st.linesSeen < 5 * st.parseErrors) →
    st'.parseErrors = st.parseErrors + countMalformed lines
    ∧ st'.linesSeen = st.linesSeen + lines.length
    ∧ st'.stats.totalVariants + st'.parseErrors
        = st.stats.totalVariants + st.parseErrors + lines.length
    ∧ ∀ k, k ≤ lines.length →
        ¬ (st.linesSeen + k < 5 * (st.parseErrors + countMalformed (lines.take k))) := by
  intro lines
  induction lines with
  | nil =>
      intro st st' h hinv
      simp only [vcfRun] at h
      injection h with h
      subst h
      refine ⟨by simp [countMalformed], by simp, by simp, fun k hk => ?_⟩
      have hk0 : k = 0 := by simp only [List.length_nil] at hk; omega
      subst hk0
      simpa [countMalformed] using hinv
  | cons l ls ih =>
      intro st st' h hinv
      simp only [vcfRun] at h
      by_cases hg : (consumeLine st l).linesSeen < 5 * (consumeLine st l).parseErrors
      · rw [if_pos hg] at h
        exact (nomatch h)
      · rw [if_neg hg] at h
        obtain ⟨e1, e2, e3, e4⟩ := ih (consumeLine st l) st' h hg
        have h1 := consumeLine_linesSeen st l
        have h2 := consumeLine_parseErrors st l
        have h3 := consumeLine_total st l
        have hcm := countMalformed_cons l ls
        refine ⟨?_, ?_, ?_, ?_⟩
        · cases hml : malformedLine l <;>
            simp only [hml, if_true, if_false] at h2 hcm <;> omega
        · simp only [List.length_cons]
          omega
        · simp only [List.length_cons]
          omega
        · intro k hk
          cases k with
          | zero =>
              simp only [List.take_zero, countMalformed, List.filter_nil, List.length_nil]
              omega
          | succ k =>
              have hk2 : k ≤ ls.length := by
                simp only [List.length_cons] at hk
                omega
              have e4k := e4 k hk2
              have hcm2 := countMalformed_cons l (ls.take k)
              rw [List.take_succ_cons]
              cases hml : malformedLine l <;>
                simp only [hml, if_true, if_false] at h2 hcm2 <;> omega

lemma vcfRun_error_facts :
    ∀ (lines : List (List String)) (st : ParseState) (e : ProcError),
    vcfRun lines st = .error e →
    e = .MalformedFile
    ∧ ∃ k, 0 < k ∧ k ≤ lines.length
        ∧ st.linesSeen + k < 5 * (st.parseErrors + countMalformed (lines.take k)) := by
  intro lines
  induction lines with
  | nil =>
      intro st e h
      exact (nomatch h)
  | cons l ls ih =>
      intro st e h
      simp only [vcfRun] at h
      have h1 := consumeLine_linesSeen st l
      have h2 := consumeLine_parseErrors st l
      by_cases hg : (consumeLine st l).linesSeen < 5 * (consumeLine st l).parseErrors
      · rw [if_pos hg] at h
        injection h with h
        refine ⟨h.symm, 1, one_pos, by simp, ?_⟩
        rw [List.take_succ_cons, List.take_zero]
        have hcm := countMalformed_cons l []
        cases hml : malformedLine l <;>
          simp only [hml, if_true, if_false] at h2 hcm <;>
          simp only [hcm] <;> omega
      · rw [if_neg hg] at h
        obtain ⟨he, k, hk0, hkle, hineq⟩ := ih (consumeLine st l) e h
        refine ⟨he, k + 1, by omega, by simp only [List.length_cons]; omega, ?_⟩
        rw [List.take_succ_cons]
        have hcm := countMalformed_cons l (ls.take k)
        cases hml : malformedLine l <;>
          simp only [hml, if_true, if_false] at h2 hcm <;> omega

/-- C8: every malformed data line is skipped and counted — a completed
parse has parse-error count equal to the number of malformed lines,
retained-variant count accounting for every remaining line, and no prefix
whose skipped-line ratio exceeds 20% — while any prefix crossing the 20%
ratio aborts the parse with `MalformedFile`, and a parse abort is
returned by the pipeline to the caller unchanged. -/
theorem malformed_line_policy :
    ∀ dataLines : List (List String),
    (match vcfRun dataLines initState with
     | .ok st =>
         st.parseErrors = countMalformed dataLines
         ∧ st.stats.totalVariants + st.parseErrors = dataLines.length
         ∧ ∀ k, k ≤ dataLines.length → 5 * countMalformed (dataLines.take k) ≤ k
     | .error e =>
         e = .MalformedFile
         ∧ ∃ k, 0 < k ∧ k ≤ dataLines.length ∧ k < 5 * countMalformed (dataLines.take k))
    ∧ (∀ e, vcfRun dataLines initState = .error e →
        process (vcfPreamble ++ dataLines) "sample.vcf" = .error e) := by
  intro dataLines
  constructor
  · cases hrun : vcfRun dataLines initState with
    | ok st =>
        obtain ⟨e1, e2, e3, e4⟩ :=
          vcfRun_ok_facts dataLines initState st hrun (by simp [initState])
        simp only [initState, VcfStats.empty] at e1 e2 e3 e4
        refine ⟨by omega, by omega, fun k hk => ?_⟩
        have := e4 k hk
        omega
    | error e =>
        obtain ⟨he, k, hk0, hkle, hineq⟩ := vcfRun_error_facts dataLines initState e hrun
        simp only [initState] at hineq
        exact ⟨he, k, hk0, hkle, by omega⟩
  · intro e he
    show vcfPipeline (vcfPreamble ++ dataLines) = .error e
    have hd : (vcfPreamble ++ dataLines).dropWhile isMetaLine
        = vcfMandatoryColumns :: dataLines := rfl
    simp only [vcfPipeline, hd]
    rw [if_pos (by decide : isColumnHeader vcfMandatoryColumns = true)]
    cases dataLines with
    | nil => exact (Except.noConfusion he)
    | cons d ds =>
        rw [if_neg (by simp : ¬ ((d :: ds).isEmpty = true))]
        rw [he]

/-- Witness for C8: a single one-column line is malformed, immediately
crosses the 20% threshold, and the pipeline surfaces `MalformedFile`. -/
theorem malformed_line_policy_witness :
    process (vcfPreamble ++ [badLine]) "sample.vcf" = .error .MalformedFile :=
  (malformed_line_policy [badLine]).2 .MalformedFile rfl

/-! ## Pipeline invariants and determinism -/

lemma prs_bounds (d : String) (panel : List SnpPanelEntry) (vs : List Variant) :
    prsInvariant (calculatePrs d panel vs) := by
  constructor
  · cases hb : (matchedEntries panel vs).isEmpty with
    | true =>
        rw [calculatePrs_score_of_empty d panel vs hb]
        constructor <;> norm_num
    | false =>
        rw [calculatePrs_score_of_matched d panel vs hb, clampRat]
        exact ⟨le_max_left 0 _, max_le (by norm_num) (min_le_left 1 _)⟩
  · rw [calculatePrs_matchedCount, calculatePrs_panelSize, matchedEntries]
    exact List.length_filter_le _ _

lemma vcfRun_statsInvariant :
    ∀ (lines : List (List String)) (st st' : ParseState),
    vcfRun lines st = .ok st' → statsInvariant st.stats → statsInvariant st'.stats := by
  intro lines
  induction lines with
  | nil =>
      intro st st' h hinv
      simp only [vcfRun] at h
      injection h with h
      subst h
      exact hinv
  | cons l ls ih =>
      intro st st' h hinv
      simp only [vcfRun] at h
      by_cases hg : (consumeLine st l).linesSeen < 5 * (consumeLine st l).parseErrors
      · rw [if_pos hg] at h
        exact (nomatch h)
      · rw [if_neg hg] at h
        exact ih (consumeLine st l) st' h (consumeLine_stats st l hinv)

lemma assembleResult_invariant (st : ParseState)
    (h : statsInvariant st.stats) : resultInvariant (assembleResult st) := by
  refine ⟨h, ?_⟩
  intro r hr
  simp only [assembleResult] at hr
  obtain ⟨p, hp, rfl⟩ := List.mem_map.mp hr
  exact prs_bounds p.1 p.2 _

/-- C5: every `ProcessingResult` a successful pipeline run hands to the
caller satisfies the data-model invariants — the per-type counts sum to
the total variant count, every PRS normalized score lies in the unit
interval, and every matched count is bounded by its panel size. -/
theorem pipeline_invariants :
    ∀ (lines : List (List String)) (filename : String),
    processInvariant (process lines filename) := by
  intro lines filename
  unfold process
  cases detectFormat lines filename with
  | Fastq => trivial
  | Unknown => trivial
  | Vcf =>
      show processInvariant (vcfPipeline lines)
      unfold vcfPipeline
      cases hdw : lines.dropWhile isMetaLine with
      | nil => trivial
      | cons hdr dataLines =>
          dsimp only
          cases hch : isColumnHeader hdr with
          | false =>
              rw [if_neg Bool.false_ne_true]
              trivial
          | true =>
              rw [if_pos rfl]
              cases hde : dataLines.isEmpty with
              | true =>
                  rw [if_pos rfl]
                  trivial
              | false =>
                  rw [if_neg Bool.false_ne_true]
                  cases hrun : vcfRun dataLines initState with
                  | error e => trivial
                  | ok st =>
                      show processInvariant (.ok (assembleResult st))
                      exact assembleResult_invariant st
                        (vcfRun_statsInvariant dataLines initState st hrun rfl)

/-- C9: the pipeline entry point is a pure function of the input bytes
and the filename — two invocations on identical inputs return identical
results (the model carries no wall-clock fields). -/
theorem process_deterministic :
    ∀ (lines lines2 : List (List String)) (fn fn2 : String),
    lines = lines2 → fn = fn2 → process lines fn = process lines2 fn2 := by
  intro l l2 f f2 hl hf
  rw [hl, hf]

/-- Witness for C9: the scenario A file processed twice gives the same
result. -/
theorem process_deterministic_witness :
    process (vcfPreamble ++ scenarioALines) "sample.vcf"
      = process (vcfPreamble ++ scenarioALines) "sample.vcf" :=
  process_deterministic _ _ _ _ rfl rfl
